import Mathlib

/-!
Verification of the mode-switching and voice-handling logic of the
`deutsch-sprechen-bot` Telegram bot (`src/main.py`).

The embedding models the `TelegramBot` class as explicit state passing:
the process-global session (`conversation_mode`, `last_audio_response`)
is a `Session` record, the four OpenAI adapters are an injected
`Providers` record of fallible functions, and each handler returns the
new session together with the ordered trace of provider calls, the
ordered trace of outbound Telegram sends/deletions, and an optional
uncaught exception.
-/

/-- The three conversation-mode strings of `TelegramBot`:
`"default"`, `"conversation"`, `"transcription"`. -/
inductive Mode where
  | default
  | conversation
  | transcription
deriving DecidableEq, Repr

/-- Audio buffers (Python `bytes`) as lists of bytes. -/
abbrev Audio := List Nat

/-- The process-global mutable state of `TelegramBot.__init__`:
`self.conversation_mode` and `self.last_audio_response`. -/
structure Session where
  mode : Mode
  lastAudio : Option Audio
deriving DecidableEq, Repr

/-- Initial state from `__init__`: `conversation_mode = "default"`,
`last_audio_response = None`. -/
def session0 : Session := ⟨Mode.default, none⟩

/-- One provider-adapter invocation, recording which adapter was called
and with which argument. -/
inductive Call where
  | transcribe (a : Audio)
  | generate (t : String)
  | synthesize (t : String)
  | extract (t : String)
deriving DecidableEq, Repr

/-- The adapter kind of a call, forgetting the argument. -/
inductive CallKind where
  | kTranscribe
  | kGenerate
  | kSynthesize
  | kExtract
deriving DecidableEq, Repr

def kindOf : Call → CallKind
  | Call.transcribe _ => CallKind.kTranscribe
  | Call.generate _ => CallKind.kGenerate
  | Call.synthesize _ => CallKind.kSynthesize
  | Call.extract _ => CallKind.kExtract

/-- Outbound Telegram traffic: text replies, voice replies, interim
processing notices and their deletion. -/
inductive Evt where
  | sentText (s : String)
  | sentVoice (a : Audio)
  | sentProc (s : String)
  | deletedProc (s : String)
deriving DecidableEq, Repr

/-- The replies the user ends up with: text and voice sends.  Interim
processing notices (and their deletions) are not replies. -/
def userReplies (es : List Evt) : List Evt :=
  es.filter fun e =>
    match e with
    | Evt.sentText _ => true
    | Evt.sentVoice _ => true
    | _ => false

/-- The four OpenAI adapters (`transcribe_audio`,
`generate_german_response`, `generate_audio_response`,
`extract_word_translations`), injected as fallible functions; `.error`
models a raised provider exception. -/
structure Providers where
  transcribe : Audio → Except String String
  generate : String → Except String String
  synthesize : String → Except String Audio
  extract : String → Except String String

/-- Result of one handler run: final session, provider-call trace,
outbound-event trace, and the uncaught exception if the handler raised. -/
structure StepOut where
  session : Session
  calls : List Call
  events : List Evt
  err : Option String
deriving Repr

/-- `"Processing your voice message..."` notice of `handle_voice`. -/
def procVoiceMsg : String := "Processing your voice message..."

/-- `"Processing a response to you..."` notice of `handle_default_mode`. -/
def procResponseMsg : String := "Processing a response to you..."

/-- The generic apology sent by the `except` block of `handle_voice`. -/
def apologyMsg : String :=
  "Sorry, I encountered an error processing your voice message. Please try again later."

/-- `"📝 Frage Transkription:..."` reply of `handle_default_mode`. -/
def frageMsg (transcript : String) : String :=
  "📝 Frage Transkription:\n" ++ transcript ++ " \n\n"

/-- `"📝 Antwort Transkription:..."` reply of `handle_default_mode`. -/
def antwortMsg (germanResponse wordTranslations : String) : String :=
  "📝 Antwort Transkription:\n" ++ germanResponse ++ " \n\n" ++
    "💡 Understanding:\n" ++ wordTranslations ++ "\n\n"

/-- `"📝 Transkription:..."` reply of `handle_conversation_mode`. -/
def conversationMsg (germanResponse : String) : String :=
  "📝 Transkription:\n" ++ germanResponse

/-- `"📝 Transcription:..."` reply of `handle_transcription_mode`. -/
def transcriptionModeMsg (transcript : String) : String :=
  "📝 Transcription:\n" ++ transcript

/-- Confirmation reply of the `"gesprächsmodus"` branch. -/
def gespraechsmodusMsg : String :=
  "🔊 Gesprächsmodus aktiviert. Ich werde jetzt nur mit Audioantworten kommunizieren."

/-- Confirmation reply of the `"transkriptionsmodus"` branch. -/
def standardmodusMsg : String :=
  "📝 Zurück zum Standardmodus. Ich werde wieder vollständige Analysen durchführen."

/-- `"📝 Transkription der letzten Audioantwort:..."` reply. -/
def lastAudioMsg (transcript : String) : String :=
  "📝 Transkription der letzten Audioantwort:\n" ++ transcript

/-- The `"no prior audio"` reply of the `"transkribieren"` branch. -/
def noAudioMsg : String :=
  "Es gibt noch keine vorherige Audioantwort zum Transkribieren."

/-- The fallback instruction reply of `handle_message`. -/
def instructionMsg : String :=
  "Bitte senden Sie eine Sprachnachricht oder einen der Modus-Befehle.\n(/help für weitere Informationen)"

/-- Python `str.lower`, restricted to ASCII letters plus the umlauts
appearing in the command vocabulary (other characters are unchanged,
matching `str.lower` on the command strings of `handle_message`). -/
def pyLowerChar (c : Char) : Char :=
  if 'A' ≤ c ∧ c ≤ 'Z' then Char.toLower c
  else if c = 'Ä' then 'ä'
  else if c = 'Ö' then 'ö'
  else if c = 'Ü' then 'ü'
  else c

/-- Python `str.strip()`: drop leading and trailing whitespace. -/
def pyStrip (cs : List Char) : List Char :=
  ((cs.dropWhile Char.isWhitespace).reverse.dropWhile Char.isWhitespace).reverse

/-- `update.message.text.lower().strip()` of `handle_message`. -/
def pyNormalize (s : String) : String :=
  ⟨pyStrip (s.data.map pyLowerChar)⟩

/-- Python truthiness of `self.last_audio_response`: `None` and the
empty byte string are falsy. -/
def truthyAudio : Option Audio → Bool
  | none => false
  | some a => !a.isEmpty

/-- `TelegramBot.handle_default_mode` (src/main.py lines 117–156): sends
a processing notice, extracts vocabulary from the transcript, generates
a German reply, synthesizes it, stores the audio, echoes the transcript,
deletes the notice, sends the audio, re-extracts vocabulary from the
reply, and sends the reply with the digest.  A provider error escapes as
`err` (to be caught in `handle_voice`). -/
def handle_default_mode (p : Providers) (st : Session) (transcript : String) : StepOut :=
  match p.extract transcript with
  | Except.error e =>
      ⟨st, [Call.extract transcript], [Evt.sentProc procResponseMsg], some e⟩
  | Except.ok _w1 =>
    match p.generate transcript with
    | Except.error e =>
        ⟨st, [Call.extract transcript, Call.generate transcript],
          [Evt.sentProc procResponseMsg], some e⟩
    | Except.ok g =>
      match p.synthesize g with
      | Except.error e =>
          ⟨st, [Call.extract transcript, Call.generate transcript, Call.synthesize g],
            [Evt.sentProc procResponseMsg], some e⟩
      | Except.ok a =>
        let st' : Session := { st with lastAudio := some a }
        match p.extract g with
        | Except.error e =>
            ⟨st', [Call.extract transcript, Call.generate transcript, Call.synthesize g,
                Call.extract g],
              [Evt.sentProc procResponseMsg, Evt.sentText (frageMsg transcript),
                Evt.deletedProc procResponseMsg, Evt.sentVoice a], some e⟩
        | Except.ok w2 =>
            ⟨st', [Call.extract transcript, Call.generate transcript, Call.synthesize g,
                Call.extract g],
              [Evt.sentProc procResponseMsg, Evt.sentText (frageMsg transcript),
                Evt.deletedProc procResponseMsg, Evt.sentVoice a,
                Evt.sentText (antwortMsg g w2)], none⟩

/-- `TelegramBot.handle_conversation_mode` (lines 259–278): generates a
German reply, synthesizes it, stores the audio, sends the audio and then
the reply text; no extraction, no transcript echo. -/
def handle_conversation_mode (p : Providers) (st : Session) (transcript : String) : StepOut :=
  match p.generate transcript with
  | Except.error e => ⟨st, [Call.generate transcript], [], some e⟩
  | Except.ok g =>
    match p.synthesize g with
    | Except.error e => ⟨st, [Call.generate transcript, Call.synthesize g], [], some e⟩
    | Except.ok a =>
        ⟨{ st with lastAudio := some a }, [Call.generate transcript, Call.synthesize g],
          [Evt.sentVoice a, Evt.sentText (conversationMsg g)], none⟩

/-- `TelegramBot.handle_transcription_mode` (lines 280–284): echoes the
transcript only. -/
def handle_transcription_mode (st : Session) (transcript : String) : StepOut :=
  ⟨st, [], [Evt.sentText (transcriptionModeMsg transcript)], none⟩

/-- `TelegramBot.handle_voice` (lines 82–115): sends the processing
notice, transcribes the voice attachment, deletes the notice, and
dispatches on the current mode; every exception from any step is caught
and answered with the one generic apology. -/
def handle_voice (p : Providers) (st : Session) (audio : Audio) : StepOut :=
  match p.transcribe audio with
  | Except.error _e =>
      ⟨st, [Call.transcribe audio],
        [Evt.sentProc procVoiceMsg, Evt.sentText apologyMsg], none⟩
  | Except.ok transcript =>
    let sub : StepOut :=
      match st.mode with
      | Mode.default => handle_default_mode p st transcript
      | Mode.conversation => handle_conversation_mode p st transcript
      | Mode.transcription => handle_transcription_mode st transcript
    let evts : List Evt :=
      Evt.sentProc procVoiceMsg :: Evt.deletedProc procVoiceMsg :: sub.events
    match sub.err with
    | some _e =>
        ⟨sub.session, Call.transcribe audio :: sub.calls,
          evts ++ [Evt.sentText apologyMsg], none⟩
    | none => ⟨sub.session, Call.transcribe audio :: sub.calls, evts, none⟩

/-- The command dispatch of `TelegramBot.handle_message` (lines
286–323) on the already-normalized text; the `"transkribieren"` branch
re-transcribes `last_audio_response` when it is truthy.  A provider
error there is uncaught (`err`), reaching only the global
`error_handler` (silent for the user). -/
def handle_message_norm (p : Providers) (st : Session) (t : String) : StepOut :=
  if t = "gesprächsmodus" then
    ⟨{ st with mode := Mode.conversation }, [], [Evt.sentText gespraechsmodusMsg], none⟩
  else if t = "transkriptionsmodus" then
    ⟨{ st with mode := Mode.default }, [], [Evt.sentText standardmodusMsg], none⟩
  else if t = "transkribieren" then
    if truthyAudio st.lastAudio then
      match st.lastAudio with
      | some a =>
        match p.transcribe a with
        | Except.ok tr =>
            ⟨st, [Call.transcribe a], [Evt.sentText (lastAudioMsg tr)], none⟩
        | Except.error e => ⟨st, [Call.transcribe a], [], some e⟩
      | none => ⟨st, [], [Evt.sentText noAudioMsg], none⟩
    else
      ⟨st, [], [Evt.sentText noAudioMsg], none⟩
  else
    ⟨st, [], [Evt.sentText instructionMsg], none⟩

/-- `TelegramBot.handle_message` (lines 286–323): normalizes the text
with `text.lower().strip()` and dispatches on the literal commands. -/
def handle_message (p : Providers) (st : Session) (text : String) : StepOut :=
  handle_message_norm p st (pyNormalize text)

/-- `TelegramBot.start_command` (lines 48–57): greeting built from the
user mention; the session is in scope (`self`) but unread. -/
def start_command (userMention : String) (_st : Session) : String :=
  "Hi " ++ userMention ++ "! I can handle different conversation modes in German.\n" ++
    "Use special commands to switch modes:\n" ++
    "• 'Gesprächsmodus': Conversation mode (audio only)\n" ++
    "• 'Transkribieren': Transcribe last audio\n" ++
    "• 'Transkriptionsmodus': Return to default mode"

/-- `TelegramBot.help_command` (lines 59–80): static usage text; the
session is in scope (`self`) but unread. -/
def help_command (_st : Session) : String :=
  "\nConversation Modes:\n1. Default Mode: Full analysis of voice messages\n" ++
    "   - Transcription\n   - Translation\n   - Key words\n\n" ++
    "2. Gesprächsmodus (Conversation Mode):\n   - Responds only with German audio\n" ++
    "   - No text analysis\n\n" ++
    "3. Transkriptionsmodus (Transcription Mode):\n   - Returns to default full analysis mode\n\n" ++
    "Special Commands:\n- Say \"Gesprächsmodus\" to enter conversation mode\n" ++
    "- Say \"Transkribieren\" to transcribe last audio\n" ++
    "- Say \"Transkriptionsmodus\" to return to default mode\n        "

/-- Folding a sequence of text messages through `handle_message`. -/
def runTexts (p : Providers) (st : Session) (texts : List String) : Session :=
  texts.foldl (fun s t => (handle_message p s t).session) st

/-! ## Helper lemmas: handler runs under explicit provider outcomes -/

theorem handle_default_mode_ok (p : Providers) (st : Session) (t w1 g w2 : String)
    (a : Audio) (hx1 : p.extract t = Except.ok w1) (hg : p.generate t = Except.ok g)
    (hs : p.synthesize g = Except.ok a) (hx2 : p.extract g = Except.ok w2) :
    handle_default_mode p st t =
      ⟨{ st with lastAudio := some a },
        [Call.extract t, Call.generate t, Call.synthesize g, Call.extract g],
        [Evt.sentProc procResponseMsg, Evt.sentText (frageMsg t),
          Evt.deletedProc procResponseMsg, Evt.sentVoice a,
          Evt.sentText (antwortMsg g w2)], none⟩ := by
  simp only [handle_default_mode, hx1, hg, hs, hx2]

theorem handle_voice_default_ok (p : Providers) (st : Session) (audio : Audio)
    (t w1 g w2 : String) (a : Audio)
    (hmode : st.mode = Mode.default)
    (htr : p.transcribe audio = Except.ok t)
    (hx1 : p.extract t = Except.ok w1) (hg : p.generate t = Except.ok g)
    (hs : p.synthesize g = Except.ok a) (hx2 : p.extract g = Except.ok w2) :
    handle_voice p st audio =
      ⟨{ st with lastAudio := some a },
        [Call.transcribe audio, Call.extract t, Call.generate t,
          Call.synthesize g, Call.extract g],
        [Evt.sentProc procVoiceMsg, Evt.deletedProc procVoiceMsg,
          Evt.sentProc procResponseMsg, Evt.sentText (frageMsg t),
          Evt.deletedProc procResponseMsg, Evt.sentVoice a,
          Evt.sentText (antwortMsg g w2)], none⟩ := by
  simp only [handle_voice, htr, hmode,
    handle_default_mode_ok p st t w1 g w2 a hx1 hg hs hx2]

theorem handle_voice_conversation_ok (p : Providers) (st : Session) (audio : Audio)
    (t g : String) (a : Audio)
    (hmode : st.mode = Mode.conversation)
    (htr : p.transcribe audio = Except.ok t)
    (hg : p.generate t = Except.ok g) (hs : p.synthesize g = Except.ok a) :
    handle_voice p st audio =
      ⟨{ st with lastAudio := some a },
        [Call.transcribe audio, Call.generate t, Call.synthesize g],
        [Evt.sentProc procVoiceMsg, Evt.deletedProc procVoiceMsg,
          Evt.sentVoice a, Evt.sentText (conversationMsg g)], none⟩ := by
  simp only [handle_voice, handle_conversation_mode, htr, hmode, hg, hs]

/-! ## Mock providers used for concrete witnesses and counterexamples -/

/-- All four adapters succeed with fixed outputs. -/
def mockProv : Providers :=
  ⟨fun _ => Except.ok "frage", fun _ => Except.ok "antwort",
    fun _ => Except.ok [7, 8], fun s => Except.ok ("w-" ++ s)⟩

/-- Extraction succeeds on the transcript but fails on the reply. -/
def mockProvX2fail : Providers :=
  ⟨fun _ => Except.ok "frage", fun _ => Except.ok "antwort",
    fun _ => Except.ok [7, 8],
    fun s => if s = "frage" then Except.ok "w1" else Except.error "boom"⟩

/-- Synthesis succeeds but yields an empty byte buffer. -/
def emptySynthProv : Providers :=
  ⟨fun _ => Except.ok "frage", fun _ => Except.ok "antwort",
    fun _ => Except.ok [], fun s => Except.ok ("w-" ++ s)⟩

/-- Same as `mockProv` except for the extraction result on `"frage"`. -/
def mockProvAlt : Providers :=
  ⟨fun _ => Except.ok "frage", fun _ => Except.ok "antwort",
    fun _ => Except.ok [7, 8],
    fun s => if s = "frage" then Except.ok "something-else" else Except.ok ("w-" ++ s)⟩

/-! ## C1 -/

/-- C1 (counterexample): in a Default-mode voice cycle where every
provider succeeds, the call trace is transcribe, extract, generate,
synthesize, extract — not the claimed transcribe, generate, synthesize,
extract, extract: the first extraction precedes generation. -/
theorem C1_counterexample :
    (handle_voice mockProv session0 [0]).calls.map kindOf =
      [CallKind.kTranscribe, CallKind.kExtract, CallKind.kGenerate,
        CallKind.kSynthesize, CallKind.kExtract] ∧
    (handle_voice mockProv session0 [0]).calls.map kindOf ≠
      [CallKind.kTranscribe, CallKind.kGenerate, CallKind.kSynthesize,
        CallKind.kExtract, CallKind.kExtract] := by
  decide

/-- C1 (amended): a Default-mode voice cycle with all providers
succeeding calls transcription once, generation once, synthesis once and
extraction twice (on the transcript, then on the reply), strictly
sequentially in the order transcribe, extract (transcript), generate,
synthesize, extract (reply). -/
theorem C1_default_call_order (p : Providers) (st : Session) (audio : Audio)
    (t w1 g w2 : String) (a : Audio)
    (hmode : st.mode = Mode.default)
    (htr : p.transcribe audio = Except.ok t)
    (hx1 : p.extract t = Except.ok w1) (hg : p.generate t = Except.ok g)
    (hs : p.synthesize g = Except.ok a) (hx2 : p.extract g = Except.ok w2) :
    (handle_voice p st audio).calls =
      [Call.transcribe audio, Call.extract t, Call.generate t,
        Call.synthesize g, Call.extract g] := by
  rw [handle_voice_default_ok p st audio t w1 g w2 a hmode htr hx1 hg hs hx2]

/-- C1 witness: the amended order theorem at the mock providers. -/
theorem C1_default_call_order_witness :
    (handle_voice mockProv session0 [0]).calls =
      [Call.transcribe [0], Call.extract "frage", Call.generate "frage",
        Call.synthesize "antwort", Call.extract "antwort"] :=
  C1_default_call_order mockProv session0 [0] "frage" "w-frage" "antwort"
    "w-antwort" [7, 8] rfl rfl rfl rfl rfl rfl

/-! ## C2 -/

/-- C2 (counterexample): when the second extraction fails, the transcript
echo and the synthesized audio have already been sent, so the user does
not receive only the apology — the cycle emits partial output. -/
theorem C2_counterexample :
    userReplies (handle_voice mockProvX2fail session0 [0]).events =
      [Evt.sentText (frageMsg "frage"), Evt.sentVoice [7, 8],
        Evt.sentText apologyMsg] ∧
    userReplies (handle_voice mockProvX2fail session0 [0]).events ≠
      [Evt.sentText apologyMsg] := by
  decide

/-- C2 (amended): on any provider error the generic apology is sent; it
is the only reply when the failure happens at transcription, at the
first Default-mode extraction, at generation or at synthesis, but when
the second Default-mode extraction fails, the transcript echo and the
audio already sent before the failing step remain delivered, followed by
the apology. -/
theorem C2_apology_on_provider_error (p : Providers) (st : Session) (audio : Audio) :
    (∀ e, p.transcribe audio = Except.error e →
      userReplies (handle_voice p st audio).events = [Evt.sentText apologyMsg]) ∧
    (∀ t e, st.mode = Mode.default → p.transcribe audio = Except.ok t →
      p.extract t = Except.error e →
      userReplies (handle_voice p st audio).events = [Evt.sentText apologyMsg]) ∧
    (∀ t w1 e, st.mode = Mode.default → p.transcribe audio = Except.ok t →
      p.extract t = Except.ok w1 → p.generate t = Except.error e →
      userReplies (handle_voice p st audio).events = [Evt.sentText apologyMsg]) ∧
    (∀ t w1 g e, st.mode = Mode.default → p.transcribe audio = Except.ok t →
      p.extract t = Except.ok w1 → p.generate t = Except.ok g →
      p.synthesize g = Except.error e →
      userReplies (handle_voice p st audio).events = [Evt.sentText apologyMsg]) ∧
    (∀ t e, st.mode = Mode.conversation → p.transcribe audio = Except.ok t →
      p.generate t = Except.error e →
      userReplies (handle_voice p st audio).events = [Evt.sentText apologyMsg]) ∧
    (∀ t g e, st.mode = Mode.conversation → p.transcribe audio = Except.ok t →
      p.generate t = Except.ok g → p.synthesize g = Except.error e →
      userReplies (handle_voice p st audio).events = [Evt.sentText apologyMsg]) ∧
    (∀ t w1 g a e, st.mode = Mode.default → p.transcribe audio = Except.ok t →
      p.extract t = Except.ok w1 → p.generate t = Except.ok g →
      p.synthesize g = Except.ok a → p.extract g = Except.error e →
      userReplies (handle_voice p st audio).events =
        [Evt.sentText (frageMsg t), Evt.sentVoice a, Evt.sentText apologyMsg]) := by
  refine ⟨?_, ?_, ?_, ?_, ?_, ?_, ?_⟩ <;> intros <;>
    simp_all [handle_voice, handle_default_mode, handle_conversation_mode, userReplies]

/-- C2 witness: the partial-output conjunct at the mock providers whose
second extraction fails. -/
theorem C2_apology_witness :
    userReplies (handle_voice mockProvX2fail session0 [1]).events =
      [Evt.sentText (frageMsg "frage"), Evt.sentVoice [7, 8],
        Evt.sentText apologyMsg] :=
  (C2_apology_on_provider_error mockProvX2fail session0 [1]).2.2.2.2.2.2
    "frage" "w1" "antwort" [7, 8] "boom" rfl rfl rfl rfl rfl rfl

/-! ## Structure of handle_message sessions (shared by C3, C4, C7) -/

theorem handle_message_norm_session (p : Providers) (st : Session) (t : String) :
    (handle_message_norm p st t).session = { st with mode := Mode.conversation } ∨
    (handle_message_norm p st t).session = { st with mode := Mode.default } ∨
    (handle_message_norm p st t).session = st := by
  unfold handle_message_norm
  split
  · exact Or.inl rfl
  · split
    · exact Or.inr (Or.inl rfl)
    · split
      · split
        · split
          · split
            · exact Or.inr (Or.inr rfl)
            · exact Or.inr (Or.inr rfl)
          · exact Or.inr (Or.inr rfl)
        · exact Or.inr (Or.inr rfl)
      · exact Or.inr (Or.inr rfl)

theorem handle_message_session (p : Providers) (st : Session) (text : String) :
    (handle_message p st text).session = { st with mode := Mode.conversation } ∨
    (handle_message p st text).session = { st with mode := Mode.default } ∨
    (handle_message p st text).session = st :=
  handle_message_norm_session p st (pyNormalize text)

theorem handle_message_lastAudio (p : Providers) (st : Session) (text : String) :
    (handle_message p st text).session.lastAudio = st.lastAudio := by
  rcases handle_message_session p st text with h | h | h <;> rw [h]

theorem handle_message_mode_ok (p : Providers) (st : Session) (text : String)
    (h : st.mode ≠ Mode.transcription) :
    (handle_message p st text).session.mode ≠ Mode.transcription := by
  rcases handle_message_session p st text with h' | h' | h' <;> rw [h'] <;> simp_all

/-! ## C3 -/

/-- C3: text equal (after lowercasing and trimming) to
`"gesprächsmodus"` switches any prior mode to Conversation;
`"transkriptionsmodus"` switches any prior mode to Default (not to a
distinct Transcription state); any other non-command text leaves the
session unchanged and yields the static instruction reply. -/
theorem C3_text_commands (p : Providers) (st : Session) (text : String) :
    (pyNormalize text = "gesprächsmodus" →
      (handle_message p st text).session.mode = Mode.conversation) ∧
    (pyNormalize text = "transkriptionsmodus" →
      (handle_message p st text).session.mode = Mode.default) ∧
    (pyNormalize text ≠ "gesprächsmodus" → pyNormalize text ≠ "transkriptionsmodus" →
      pyNormalize text ≠ "transkribieren" →
      (handle_message p st text).session = st ∧
      (handle_message p st text).events = [Evt.sentText instructionMsg]) := by
  refine ⟨?_, ?_, ?_⟩
  · intro h
    simp [handle_message, handle_message_norm, h]
  · intro h
    simp [handle_message, handle_message_norm, h]
  · intro h1 h2 h3
    simp [handle_message, handle_message_norm, h1, h2, h3]

/-- C3 witness: the three branches at concrete texts (mixed case and
surrounding whitespace for the commands). -/
theorem C3_text_commands_witness :
    (handle_message mockProv session0 "  Gesprächsmodus ").session.mode =
      Mode.conversation ∧
    (handle_message mockProv ⟨Mode.conversation, none⟩ "TRANSKRIPTIONSMODUS").session.mode =
      Mode.default ∧
    (handle_message mockProv session0 "hallo").events =
      [Evt.sentText instructionMsg] :=
  ⟨(C3_text_commands mockProv session0 "  Gesprächsmodus ").1 (by decide),
    (C3_text_commands mockProv ⟨Mode.conversation, none⟩ "TRANSKRIPTIONSMODUS").2.1
      (by decide),
    ((C3_text_commands mockProv session0 "hallo").2.2 (by decide) (by decide)
      (by decide)).2⟩

/-! ## C4 -/

/-- C4: from the initial session (Default mode, no stored audio), every
sequence of text-message handling steps keeps the mode in
{Default, Conversation}; Transcription is never entered. -/
theorem C4_reachable_modes (p : Providers) (texts : List String) :
    (runTexts p session0 texts).mode = Mode.default ∨
    (runTexts p session0 texts).mode = Mode.conversation := by
  have key : ∀ (ts : List String) (st : Session), st.mode ≠ Mode.transcription →
      (runTexts p st ts).mode ≠ Mode.transcription := by
    intro ts
    induction ts with
    | nil => intro st h; exact h
    | cons t ts ih =>
        intro st h
        exact ih _ (handle_message_mode_ok p st t h)
  have h := key texts session0 (by simp [session0])
  cases hm : (runTexts p session0 texts).mode
  · exact Or.inl rfl
  · exact Or.inr rfl
  · exact absurd hm h

/-! ## More handler-run helper lemmas -/

theorem handle_voice_default_synerr (p : Providers) (st : Session) (audio : Audio)
    (t w1 g e : String)
    (hmode : st.mode = Mode.default)
    (htr : p.transcribe audio = Except.ok t)
    (hx1 : p.extract t = Except.ok w1) (hg : p.generate t = Except.ok g)
    (hs : p.synthesize g = Except.error e) :
    handle_voice p st audio =
      ⟨st, [Call.transcribe audio, Call.extract t, Call.generate t, Call.synthesize g],
        [Evt.sentProc procVoiceMsg, Evt.deletedProc procVoiceMsg,
          Evt.sentProc procResponseMsg, Evt.sentText apologyMsg], none⟩ := by
  simp only [handle_voice, handle_default_mode, htr, hmode, hx1, hg, hs,
    List.cons_append, List.nil_append]

theorem handle_voice_default_x2err (p : Providers) (st : Session) (audio : Audio)
    (t w1 g e : String) (a : Audio)
    (hmode : st.mode = Mode.default)
    (htr : p.transcribe audio = Except.ok t)
    (hx1 : p.extract t = Except.ok w1) (hg : p.generate t = Except.ok g)
    (hs : p.synthesize g = Except.ok a) (hx2 : p.extract g = Except.error e) :
    handle_voice p st audio =
      ⟨{ st with lastAudio := some a },
        [Call.transcribe audio, Call.extract t, Call.generate t,
          Call.synthesize g, Call.extract g],
        [Evt.sentProc procVoiceMsg, Evt.deletedProc procVoiceMsg,
          Evt.sentProc procResponseMsg, Evt.sentText (frageMsg t),
          Evt.deletedProc procResponseMsg, Evt.sentVoice a,
          Evt.sentText apologyMsg], none⟩ := by
  simp only [handle_voice, handle_default_mode, htr, hmode, hx1, hg, hs, hx2,
    List.cons_append, List.nil_append]

theorem handle_message_norm_transkribieren_ok (p : Providers) (st : Session)
    (a : Audio) (tr : String) (ha : st.lastAudio = some a) (hne : a ≠ [])
    (htr : p.transcribe a = Except.ok tr) :
    handle_message_norm p st "transkribieren" =
      ⟨st, [Call.transcribe a], [Evt.sentText (lastAudioMsg tr)], none⟩ := by
  have e1 : ¬(("transkribieren" : String) = "gesprächsmodus") := by decide
  have e2 : ¬(("transkribieren" : String) = "transkriptionsmodus") := by decide
  have e3 : truthyAudio (some a) = true := by
    cases a with
    | nil => exact absurd rfl hne
    | cons c cs => rfl
  unfold handle_message_norm
  rw [if_neg e1, if_neg e2, if_pos rfl, ha, e3, if_pos rfl]
  simp only [htr]

theorem handle_message_norm_noaudio (p : Providers) (st : Session)
    (ha : st.lastAudio = none) :
    handle_message_norm p st "transkribieren" =
      ⟨st, [], [Evt.sentText noAudioMsg], none⟩ := by
  have e1 : ¬(("transkribieren" : String) = "gesprächsmodus") := by decide
  have e2 : ¬(("transkribieren" : String) = "transkriptionsmodus") := by decide
  unfold handle_message_norm
  rw [if_neg e1, if_neg e2, if_pos rfl, ha]
  rfl

/-! ## C5 -/

/-- C5 (counterexample): a successful synthesis can store an empty
buffer; from that session, `"transkribieren"` does not invoke the
transcription adapter at all and replies that no prior audio exists,
because the code tests Python truthiness (empty bytes are falsy), not
presence. -/
theorem C5_counterexample :
    (handle_voice emptySynthProv session0 [0]).session.lastAudio = some [] ∧
    (handle_message emptySynthProv (handle_voice emptySynthProv session0 [0]).session
        "transkribieren").calls = [] ∧
    (handle_message emptySynthProv (handle_voice emptySynthProv session0 [0]).session
        "transkribieren").events = [Evt.sentText noAudioMsg] := by
  decide

/-- C5 (amended): when the stored buffer is non-empty, handling
`"transkribieren"` passes exactly the stored buffer to the transcription
adapter, replies with the resulting transcript, and changes neither the
mode nor the stored buffer. -/
theorem C5_transkribieren_stored_buffer (p : Providers) (st : Session)
    (a : Audio) (tr : String) (ha : st.lastAudio = some a) (hne : a ≠ [])
    (htr : p.transcribe a = Except.ok tr) :
    (handle_message p st "transkribieren").calls = [Call.transcribe a] ∧
    (handle_message p st "transkribieren").events = [Evt.sentText (lastAudioMsg tr)] ∧
    (handle_message p st "transkribieren").session = st := by
  have hnorm : pyNormalize "transkribieren" = "transkribieren" := by decide
  unfold handle_message
  rw [hnorm, handle_message_norm_transkribieren_ok p st a tr ha hne htr]
  exact ⟨rfl, rfl, rfl⟩

/-- C5 witness: the amended theorem at a session holding `[7, 8]`. -/
theorem C5_transkribieren_witness :
    (handle_message mockProv ⟨Mode.default, some [7, 8]⟩ "transkribieren").calls =
      [Call.transcribe [7, 8]] ∧
    (handle_message mockProv ⟨Mode.default, some [7, 8]⟩ "transkribieren").events =
      [Evt.sentText (lastAudioMsg "frage")] ∧
    (handle_message mockProv ⟨Mode.default, some [7, 8]⟩ "transkribieren").session =
      ⟨Mode.default, some [7, 8]⟩ :=
  C5_transkribieren_stored_buffer mockProv ⟨Mode.default, some [7, 8]⟩ [7, 8]
    "frage" rfl (by decide) rfl

/-! ## C6 -/

/-- C6: when no audio was ever synthesized, `"transkribieren"` yields
the fixed no-prior-audio reply, invokes no provider adapter, and leaves
the session unchanged. -/
theorem C6_no_prior_audio (p : Providers) (st : Session) (text : String)
    (hn : st.lastAudio = none) (ht : pyNormalize text = "transkribieren") :
    handle_message p st text = ⟨st, [], [Evt.sentText noAudioMsg], none⟩ := by
  unfold handle_message
  rw [ht, handle_message_norm_noaudio p st hn]

/-- C6 witness: the theorem at the initial session and mixed-case text. -/
theorem C6_no_prior_audio_witness :
    handle_message mockProv session0 " Transkribieren " =
      ⟨session0, [], [Evt.sentText noAudioMsg], none⟩ :=
  C6_no_prior_audio mockProv session0 " Transkribieren " rfl (by decide)

/-! ## C7 -/

/-- C7: every successful synthesis overwrites the stored audio with the
newly produced buffer (in Default mode this holds whether or not the
later second extraction fails), and no other operation modifies it:
Transcription-mode voice handling and all text-message handling leave it
unchanged. -/
theorem C7_lastAudio_frame (p : Providers) (st : Session) (audio : Audio)
    (text : String) :
    (∀ t w1 g a, st.mode = Mode.default → p.transcribe audio = Except.ok t →
      p.extract t = Except.ok w1 → p.generate t = Except.ok g →
      p.synthesize g = Except.ok a →
      (handle_voice p st audio).session.lastAudio = some a) ∧
    (∀ t g a, st.mode = Mode.conversation → p.transcribe audio = Except.ok t →
      p.generate t = Except.ok g → p.synthesize g = Except.ok a →
      (handle_voice p st audio).session.lastAudio = some a) ∧
    (st.mode = Mode.transcription → (handle_voice p st audio).session = st) ∧
    ((handle_message p st text).session.lastAudio = st.lastAudio) := by
  refine ⟨?_, ?_, ?_, ?_⟩
  · intro t w1 g a hmode htr hx1 hg hs
    cases hx2 : p.extract g with
    | ok w2 =>
        rw [handle_voice_default_ok p st audio t w1 g w2 a hmode htr hx1 hg hs hx2]
    | error e =>
        rw [handle_voice_default_x2err p st audio t w1 g e a hmode htr hx1 hg hs hx2]
  · intro t g a hmode htr hg hs
    rw [handle_voice_conversation_ok p st audio t g a hmode htr hg hs]
  · intro hmode
    cases htr : p.transcribe audio with
    | error e => simp [handle_voice, htr]
    | ok t => simp [handle_voice, htr, hmode, handle_transcription_mode]
  · exact handle_message_lastAudio p st text

/-- C7 witness: the Default-mode overwrite conjunct at the mock
providers. -/
theorem C7_lastAudio_frame_witness :
    (handle_voice mockProv session0 [0]).session.lastAudio = some [7, 8] :=
  (C7_lastAudio_frame mockProv session0 [0] "x").1 "frage" "w-frage" "antwort"
    [7, 8] rfl rfl rfl rfl rfl

/-! ## C8 -/

/-- C8: a Conversation-mode voice cycle with all providers succeeding
calls transcription, generation and synthesis, performs zero extraction
calls, and sends the user only the synthesized audio and the generated
reply text — no transcript echo and no vocabulary digest. -/
theorem C8_conversation_pipeline (p : Providers) (st : Session) (audio : Audio)
    (t g : String) (a : Audio)
    (hmode : st.mode = Mode.conversation)
    (htr : p.transcribe audio = Except.ok t)
    (hg : p.generate t = Except.ok g) (hs : p.synthesize g = Except.ok a) :
    (handle_voice p st audio).calls =
      [Call.transcribe audio, Call.generate t, Call.synthesize g] ∧
    CallKind.kExtract ∉ (handle_voice p st audio).calls.map kindOf ∧
    userReplies (handle_voice p st audio).events =
      [Evt.sentVoice a, Evt.sentText (conversationMsg g)] := by
  rw [handle_voice_conversation_ok p st audio t g a hmode htr hg hs]
  refine ⟨rfl, ?_, ?_⟩
  · simp [kindOf]
  · simp [userReplies]

/-- C8 witness: the theorem at the mock providers from a
Conversation-mode session. -/
theorem C8_conversation_witness :
    (handle_voice mockProv ⟨Mode.conversation, none⟩ [0]).calls =
      [Call.transcribe [0], Call.generate "frage", Call.synthesize "antwort"] ∧
    CallKind.kExtract ∉ (handle_voice mockProv ⟨Mode.conversation, none⟩ [0]).calls.map kindOf ∧
    userReplies (handle_voice mockProv ⟨Mode.conversation, none⟩ [0]).events =
      [Evt.sentVoice [7, 8], Evt.sentText (conversationMsg "antwort")] :=
  C8_conversation_pipeline mockProv ⟨Mode.conversation, none⟩ [0] "frage"
    "antwort" [7, 8] rfl rfl rfl rfl

/-! ## C9 -/

/-- C9: in Default mode the vocabulary digest sent to the user depends
only on the extraction of the generated reply: two provider bundles that
agree everywhere except on the (successful) extraction of the input
transcript produce identical outbound events and identical final
sessions — the first extraction's result is overwritten before use and
never appears in any message. -/
theorem C9_first_extraction_unused (p q : Providers) (st : Session) (audio : Audio)
    (t g : String)
    (hmode : st.mode = Mode.default)
    (htr : ∀ x, p.transcribe x = q.transcribe x)
    (hgen : ∀ s, p.generate s = q.generate s)
    (hsyn : ∀ s, p.synthesize s = q.synthesize s)
    (ht : p.transcribe audio = Except.ok t)
    (hg : p.generate t = Except.ok g)
    (hx1p : ∃ w, p.extract t = Except.ok w)
    (hx1q : ∃ w, q.extract t = Except.ok w)
    (hxg : p.extract g = q.extract g) :
    (handle_voice p st audio).events = (handle_voice q st audio).events ∧
    (handle_voice p st audio).session = (handle_voice q st audio).session := by
  obtain ⟨w1, hw1⟩ := hx1p
  obtain ⟨w1q, hw1q⟩ := hx1q
  have htq : q.transcribe audio = Except.ok t := by rw [← htr audio]; exact ht
  have hgq : q.generate t = Except.ok g := by rw [← hgen t]; exact hg
  cases hs : p.synthesize g with
  | error e =>
      have hsq : q.synthesize g = Except.error e := by rw [← hsyn g]; exact hs
      rw [handle_voice_default_synerr p st audio t w1 g e hmode ht hw1 hg hs,
        handle_voice_default_synerr q st audio t w1q g e hmode htq hw1q hgq hsq]
      exact ⟨rfl, rfl⟩
  | ok a =>
      have hsq : q.synthesize g = Except.ok a := by rw [← hsyn g]; exact hs
      cases hx2 : p.extract g with
      | error e =>
          have hx2q : q.extract g = Except.error e := by rw [← hxg]; exact hx2
          rw [handle_voice_default_x2err p st audio t w1 g e a hmode ht hw1 hg hs hx2,
            handle_voice_default_x2err q st audio t w1q g e a hmode htq hw1q hgq hsq hx2q]
          exact ⟨rfl, rfl⟩
      | ok w2 =>
          have hx2q : q.extract g = Except.ok w2 := by rw [← hxg]; exact hx2
          rw [handle_voice_default_ok p st audio t w1 g w2 a hmode ht hw1 hg hs hx2,
            handle_voice_default_ok q st audio t w1q g w2 a hmode htq hw1q hgq hsq hx2q]
          exact ⟨rfl, rfl⟩

/-- C9 witness: two concrete bundles differing only in the extraction
result on the transcript `"frage"` produce the same events and session. -/
theorem C9_first_extraction_witness :
    (handle_voice mockProv session0 [0]).events =
      (handle_voice mockProvAlt session0 [0]).events ∧
    (handle_voice mockProv session0 [0]).session =
      (handle_voice mockProvAlt session0 [0]).session :=
  C9_first_extraction_unused mockProv mockProvAlt session0 [0] "frage" "antwort"
    rfl (fun _ => rfl) (fun _ => rfl) (fun _ => rfl) rfl rfl
    ⟨"w-frage", rfl⟩ ⟨"something-else", rfl⟩ rfl

/-! ## C10 -/

/-- C10: the `/start` and `/help` replies are the same under any two
session states — they read neither the mode nor the stored audio. -/
theorem C10_static_commands (u : String) (st stB : Session) :
    start_command u st = start_command u stB ∧
    help_command st = help_command stB :=
  ⟨rfl, rfl⟩
